import Mathlib

/-!
Verification of the `oneutil` ETL core: date-token extraction from object keys
(`src/oneutil/etl/util.py`, `src/oneutil/etl/databento.py`), range selection,
and the fetch/decode/concatenate pipeline `read_databento_from_s3`.

The Python code is shallowly embedded:
* `datetime.date` becomes `PyDate` (year/month/day as `Nat`, ordered
  lexicographically as Python orders dates);
* a raised Python exception becomes the `Except.error` branch of an
  `Except PyErr _` result (`ValueError` from `strptime`, `FileNotFoundError`
  from the orchestrator, opaque fetch/decode failures);
* `re.search` for the fixed-shape patterns `\d{8}`, `\d{4}-\d{2}-\d{2}` and
  `\d{4}_\d{2}_\d{2}` becomes a leftmost scan `searchFirst` with a matcher per
  pattern;
* `datetime.strptime(tok, "%Y%m%d").date()` (and the hyphen/underscore
  variants) becomes `strptimeYmd`: on the matched fixed-width tokens CPython's
  `_strptime` succeeds exactly when the two-digit month is 01..12, the
  two-digit day is a valid day of that month, and the four-digit year is at
  least 0001 (any other split of the digits leaves unconverted data and
  raises `ValueError`);
* the external collaborators (the S3 listing in `get_s3_bucket_files`, the
  fetch+decode in `get_df_from_s3`) are oracle parameters: a listed key list
  and a function `String → Except PyErr (List α)`;
* a pandas `DataFrame` is a list of rows; `pd.concat(dfs, ignore_index=True)`
  is `List.join` (row blocks in order, rows re-indexed positionally).
-/

namespace Oneutil

/-- A Python `datetime.date` value: year, month, day. -/
structure PyDate where
  year : Nat
  month : Nat
  day : Nat
deriving DecidableEq, Repr

/-- The Python exceptions the embedded code can raise or propagate:
`ValueError` (from `strptime`), `FileNotFoundError msg` (raised by
`read_databento_from_s3` on an empty selection), and opaque collaborator
failures (transport / decode errors from `get_df_from_s3`). -/
inductive PyErr where
  | valueError
  | fileNotFound (msg : String)
  | other (msg : String)
deriving DecidableEq, Repr

instance {ε α : Type} [DecidableEq ε] [DecidableEq α] : DecidableEq (Except ε α) :=
  fun x y =>
    match x, y with
    | .ok a, .ok b =>
      if h : a = b then isTrue (by rw [h]) else isFalse (fun hc => by cases hc; exact h rfl)
    | .ok _, .error _ => isFalse (fun hc => by cases hc)
    | .error _, .ok _ => isFalse (fun hc => by cases hc)
    | .error e, .error f =>
      if h : e = f then isTrue (by rw [h]) else isFalse (fun hc => by cases hc; exact h rfl)

/-- Python date ordering (lexicographic on year, month, day), as used by
`sd <= file_date <= ed` in `read_databento_from_s3`. -/
def PyDate.le (a b : PyDate) : Bool :=
  Nat.blt a.year b.year ||
    (a.year == b.year &&
      (Nat.blt a.month b.month ||
        (a.month == b.month && Nat.ble a.day b.day)))

/-- Gregorian leap-year rule, as in `datetime`. -/
def isLeap (y : Nat) : Bool :=
  (y % 4 == 0 && y % 100 != 0) || y % 400 == 0

/-- Number of days of month `m` in year `y`, as in `datetime`. -/
def daysInMonth (y m : Nat) : Nat :=
  if m == 2 then (if isLeap y then 29 else 28)
  else if m == 4 || m == 6 || m == 9 || m == 11 then 30
  else 31

/-- `datetime.strptime` on a fixed-width `YYYY MM DD` digit token, followed by
`.date()`: `some` exactly when the components form a valid `datetime.date`
(`ValueError` otherwise, modelled as `none`). CPython's `_strptime` regex
requires the month in 01..12 and the day in 01..31 for the token to be fully
consumed, and `datetime.date` then requires `1 <= year` and
`day <= daysInMonth` — together: the condition below. -/
def strptimeYmd (y m d : Nat) : Option PyDate :=
  if 1 ≤ y ∧ y ≤ 9999 ∧ 1 ≤ m ∧ m ≤ 12 ∧ 1 ≤ d ∧ d ≤ daysInMonth y m then
    some ⟨y, m, d⟩
  else
    none

/-- Value of a list of decimal digit characters. -/
def digitsToNat (l : List Char) : Nat :=
  l.foldl (fun a c => 10 * a + (c.toNat - 48)) 0

/-- Matcher for the pattern `\d{8}` at the current position: the first eight
characters, when they are all digits. -/
def match8 (l : List Char) : Option (List Char) :=
  if (l.take 8).length == 8 && (l.take 8).all Char.isDigit then
    some (l.take 8)
  else
    none

/-- Matcher for the pattern `\d{4}-\d{2}-\d{2}` at the current position. -/
def matchHyphen (l : List Char) : Option (List Char) :=
  match l with
  | y1 :: y2 :: y3 :: y4 :: h1 :: m1 :: m2 :: h2 :: d1 :: d2 :: _ =>
    if [y1, y2, y3, y4, m1, m2, d1, d2].all Char.isDigit &&
        h1 == '-' && h2 == '-' then
      some [y1, y2, y3, y4, h1, m1, m2, h2, d1, d2]
    else
      none
  | _ => none

/-- Matcher for the pattern `\d{4}_\d{2}_\d{2}` at the current position. -/
def matchUnderscore (l : List Char) : Option (List Char) :=
  match l with
  | y1 :: y2 :: y3 :: y4 :: h1 :: m1 :: m2 :: h2 :: d1 :: d2 :: _ =>
    if [y1, y2, y3, y4, m1, m2, d1, d2].all Char.isDigit &&
        h1 == '_' && h2 == '_' then
      some [y1, y2, y3, y4, h1, m1, m2, h2, d1, d2]
    else
      none
  | _ => none

/-- `re.search`: try the matcher at each position from the left, return the
first match. -/
def searchFirst (m : List Char → Option (List Char)) : List Char → Option (List Char)
  | [] => m []
  | c :: rest =>
    match m (c :: rest) with
    | some t => some t
    | none => searchFirst m rest

/-- Parse an eight-digit token with `strptime(_, "%Y%m%d")`. -/
def parseTok8 (t : List Char) : Option PyDate :=
  strptimeYmd (digitsToNat (t.take 4)) (digitsToNat ((t.drop 4).take 2))
    (digitsToNat (t.drop 6))

/-- Parse a `YYYY-MM-DD` token with `strptime(_, "%Y-%m-%d")`. -/
def parseTokHyphen (t : List Char) : Option PyDate :=
  strptimeYmd (digitsToNat (t.take 4)) (digitsToNat ((t.drop 5).take 2))
    (digitsToNat (t.drop 8))

/-- `extract_date_default` (util.py): search for `\d{8}`; on a match, parse it
with `strptime` (which may raise `ValueError`); otherwise return `None`. -/
def extract_date_default (filename : String) : Except PyErr (Option PyDate) :=
  match searchFirst match8 filename.data with
  | some tok =>
    match parseTok8 tok with
    | some d => .ok (some d)
    | none => .error .valueError
  | none => .ok none

/-- `extract_date_hyphen` (util.py). -/
def extract_date_hyphen (filename : String) : Except PyErr (Option PyDate) :=
  match searchFirst matchHyphen filename.data with
  | some tok =>
    match parseTokHyphen tok with
    | some d => .ok (some d)
    | none => .error .valueError
  | none => .ok none

/-- `extract_date_underscore` (util.py); the token has the same digit layout
as the hyphen format. -/
def extract_date_underscore (filename : String) : Except PyErr (Option PyDate) :=
  match searchFirst matchUnderscore filename.data with
  | some tok =>
    match parseTokHyphen tok with
    | some d => .ok (some d)
    | none => .error .valueError
  | none => .ok none

/-- `extract_date_from_string` (util.py): dispatch on the format selector;
an unrecognized selector falls through every branch and the Python function
returns `None` implicitly. -/
def extract_date_from_string (filename : String) (format : String) :
    Except PyErr (Option PyDate) :=
  if format = "default" then extract_date_default filename
  else if format = "hyphen" then extract_date_hyphen filename
  else if format = "underscore" then extract_date_underscore filename
  else .ok none

/-- `extract_date_from_filename` (databento.py): a verbatim copy of the
default-format extraction. -/
def extract_date_from_filename (filename : String) : Except PyErr (Option PyDate) :=
  match searchFirst match8 filename.data with
  | some tok =>
    match parseTok8 tok with
    | some d => .ok (some d)
    | none => .error .valueError
  | none => .ok none

/-- Python's `s.startswith(p)`: `p` is a character-prefix of `s`. -/
def startswith (s p : String) : Bool :=
  List.isPrefixOf p.data s.data

/-- Python's `s.endswith(p)`: `p` is a character-suffix of `s`. -/
def endswith (s p : String) : Bool :=
  List.isSuffixOf p.data s.data

/-- `get_files_in_s3_folder` (databento.py): the bucket listing returned by
the external `get_s3_bucket_files` collaborator is the parameter `file_list`;
the function keeps exactly the keys for which Python's
`filename.startswith(foldername)` holds. -/
def get_files_in_s3_folder (foldername : String) (file_list : List String) :
    List String :=
  file_list.filter (fun filename => startswith filename foldername)

/-- `get_files_in_s3_path` (aws.py): the collaborator-provided listing under
the prefix/delimiter is the parameter `listed`; the function's own filter
drops every key that satisfies Python's `key.endswith("/")`. -/
def get_files_in_s3_path (listed : List String) : List String :=
  listed.filter (fun key => !(endswith key "/"))

/-- The range-selection loop of `read_databento_from_s3` (databento.py):
for each filename in order, extract its date (`extract_date_from_filename`
may raise, aborting the loop), and keep the filename when the date is present
and `sd <= file_date <= ed`. -/
def selectFiles (sd ed : PyDate) : List String → Except PyErr (List String)
  | [] => .ok []
  | f :: rest =>
    match extract_date_from_filename f with
    | .error e => .error e
    | .ok fd =>
      let keep :=
        match fd with
        | some d => sd.le d && d.le ed
        | none => false
      match selectFiles sd ed rest with
      | .error e => .error e
      | .ok tail => .ok (if keep then f :: tail else tail)

/-- The selection predicate of the claim: the key's extracted date is present
and lies in the inclusive range. -/
def inRange (sd ed : PyDate) (k : String) : Bool :=
  match extract_date_from_filename k with
  | .ok (some d) => sd.le d && d.le ed
  | _ => false

/-- The fetch/decode loop of `read_databento_from_s3`: call `get_df_from_s3`
(the oracle `g`, covering the external fetch and decode) on each selected key
in order, collecting the decoded tables; the first failure aborts the loop. -/
def fetchLoop {α : Type} (g : String → Except PyErr (List α)) :
    List String → Except PyErr (List (List α))
  | [] => .ok []
  | f :: rest =>
    match g f with
    | .error e => .error e
    | .ok df =>
      match fetchLoop g rest with
      | .error e => .error e
      | .ok dfs => .ok (df :: dfs)

/-- Instrumentation of `fetchLoop`: the keys on which `get_df_from_s3` is
actually invoked, in order (the loop stops at the first failing key). -/
def fetchAttempts {α : Type} (g : String → Except PyErr (List α)) :
    List String → List String
  | [] => []
  | f :: rest =>
    match g f with
    | .error _ => [f]
    | .ok _ => f :: fetchAttempts g rest

/-- `pd.concat(dfs_to_concat, ignore_index=True)`: the row blocks in order;
`ignore_index=True` renumbers the rows positionally, so a row's index is its
position in the joined list. -/
def pd_concat_ignore_index {α : Type} (dfs : List (List α)) : List α :=
  dfs.flatten

/-- Two-digit zero-padded decimal rendering, as in `date.__str__`. -/
def pad2 (n : Nat) : String :=
  if n < 10 then "0" ++ toString n else toString n

/-- Four-digit zero-padded decimal rendering, as in `date.__str__`. -/
def pad4 (n : Nat) : String :=
  if n < 10 then "000" ++ toString n
  else if n < 100 then "00" ++ toString n
  else if n < 1000 then "0" ++ toString n
  else toString n

/-- Python's `str(date)`: ISO `YYYY-MM-DD`. -/
def PyDate.str (d : PyDate) : String :=
  pad4 d.year ++ "-" ++ pad2 d.month ++ "-" ++ pad2 d.day

/-- The f-string of the `FileNotFoundError` raised by
`read_databento_from_s3`: `f"No files found in the date range {sd} to {ed}"`. -/
def noFilesMsg (sd ed : PyDate) : String :=
  "No files found in the date range " ++ sd.str ++ " to " ++ ed.str

/-- `read_databento_from_s3` (databento.py). External collaborators are
oracle parameters: `file_list` is the bucket listing consumed by
`get_files_in_s3_folder`, and `g` is `get_df_from_s3` (fetch + decode of one
key). The pipeline lists, range-filters, raises `FileNotFoundError` on an
empty selection, fetches and decodes each selected key in order, and
concatenates the tables with a fresh index. -/
def read_databento_from_s3 {α : Type} (folder : String) (sd ed : PyDate)
    (file_list : List String) (g : String → Except PyErr (List α)) :
    Except PyErr (List α) :=
  let files_in_folder := get_files_in_s3_folder folder file_list
  match selectFiles sd ed files_in_folder with
  | .error e => .error e
  | .ok files_to_read =>
    if files_to_read.isEmpty then
      .error (.fileNotFound (noFilesMsg sd ed))
    else
      match fetchLoop g files_to_read with
      | .error e => .error e
      | .ok dfs_to_concat => .ok (pd_concat_ignore_index dfs_to_concat)

/-! ### Helper lemmas -/

/-- `re.search` correctness, positive direction: if the matcher fails at every
position strictly before `a.length` and matches at position `a.length`
(producing `t`), the scan returns `t`. -/
theorem searchFirst_pos (m : List Char → Option (List Char)) (a b t : List Char)
    (hb : m b = some t) (ha : ∀ j < a.length, m ((a ++ b).drop j) = none) :
    searchFirst m (a ++ b) = some t := by
  induction a with
  | nil =>
    cases b with
    | nil => simpa [searchFirst] using hb
    | cons c r => simp [searchFirst, hb]
  | cons c a ih =>
    have h0 := ha 0 (Nat.succ_pos _)
    simp only [List.drop_zero, List.cons_append] at h0
    rw [List.cons_append, searchFirst, h0]
    exact ih (fun j hj => by
      have := ha (j + 1) (Nat.succ_lt_succ hj)
      simpa using this)

/-- `re.search` correctness, negative direction: if the matcher fails at every
position of the string (and on the empty remainder), the scan returns `none`. -/
theorem searchFirst_neg (m : List Char → Option (List Char)) (l : List Char)
    (hnil : m [] = none) (h : ∀ j < l.length, m (l.drop j) = none) :
    searchFirst m l = none := by
  induction l with
  | nil => simpa [searchFirst] using hnil
  | cons c r ih =>
    have h0 := h 0 (Nat.succ_pos _)
    simp only [List.drop_zero] at h0
    rw [searchFirst, h0]
    exact ih (fun j hj => by
      have := h (j + 1) (Nat.succ_lt_succ hj)
      simpa using this)

/-- The fetch/decode loop on a selection whose keys all succeed up to a first
failing key `k`: the loop surfaces exactly that error, and the keys attempted
are the successful prefix followed by `k` — nothing after `k` is fetched. -/
theorem fetchLoop_first_error {α : Type} (g : String → Except PyErr (List α))
    (pre : List String) (k : String) (post : List String) (e : PyErr)
    (hpre : ∀ x ∈ pre, (g x).isOk = true) (hk : g k = .error e) :
    fetchLoop g (pre ++ k :: post) = .error e ∧
      fetchAttempts g (pre ++ k :: post) = pre ++ [k] := by
  induction pre with
  | nil => simp [fetchLoop, fetchAttempts, hk]
  | cons p pre ih =>
    have hp := hpre p (List.mem_cons_self p pre)
    cases hx : g p with
    | error e2 => rw [hx] at hp; simp [Except.isOk, Except.toBool] at hp
    | ok t =>
      have ⟨ih1, ih2⟩ := ih (fun x hx2 => hpre x (List.mem_cons_of_mem p hx2))
      rw [List.cons_append, List.cons_append]
      constructor
      · rw [fetchLoop, hx, ih1]
      · rw [fetchAttempts, hx, ih2]

/-- The fetch/decode loop when every selected key succeeds: it returns the
per-key tables in selection order. -/
theorem fetchLoop_all_ok {α : Type} (g : String → Except PyErr (List α))
    (tables : String → List α) (keys : List String)
    (h : ∀ k ∈ keys, g k = .ok (tables k)) :
    fetchLoop g keys = .ok (keys.map tables) := by
  induction keys with
  | nil => rfl
  | cons f rest ih =>
    rw [fetchLoop, h f (List.mem_cons_self f rest),
      ih (fun k hk => h k (List.mem_cons_of_mem f hk)), List.map_cons]

/-! ### Claim theorems -/

/-- Claim C1, counterexample: keys whose token matches the format pattern
but is not a valid calendar date make extraction raise `ValueError` instead
of returning absence, in all three formats: `99999999` (month 99) under
`default` — also in the databento.py copy `extract_date_from_filename` —
`9999-99-99` under `hyphen` and `9999_99_99` under `underscore`. -/
theorem extract_invalid_date_raises_at_99999999 :
    extract_date_from_string "file_99999999.bin" "default" =
      Except.error PyErr.valueError ∧
    extract_date_from_filename "file_99999999.bin" =
      Except.error PyErr.valueError ∧
    extract_date_from_string "file_9999-99-99.bin" "hyphen" =
      Except.error PyErr.valueError ∧
    extract_date_from_string "file_9999_99_99.bin" "underscore" =
      Except.error PyErr.valueError := by
  decide

/-- Claim C1, amended: for every format in the closed set
{default, hyphen, underscore}, if the leftmost substring matching the
format's token pattern is not a valid calendar date, extraction raises
`ValueError` (it does not return absence); if the leftmost matching
substring is a valid date, extraction returns that date; and with no
matching substring extraction returns absence — so absence is returned
exactly when no substring matches. Grouped per format as
(invalid raises ∧ (valid returns the date ∧ no match returns absence)). -/
theorem extract_invalid_matching_token_raises :
    ((∀ (s : String) (tok : List Char),
      searchFirst match8 s.data = some tok → parseTok8 tok = none →
      extract_date_from_string s "default" = Except.error PyErr.valueError ∧
      extract_date_from_filename s = Except.error PyErr.valueError) ∧
    (∀ (s : String) (tok : List Char) (dt : PyDate),
      searchFirst match8 s.data = some tok → parseTok8 tok = some dt →
      extract_date_from_string s "default" = Except.ok (some dt) ∧
      extract_date_from_filename s = Except.ok (some dt)) ∧
    (∀ s : String, searchFirst match8 s.data = none →
      extract_date_from_string s "default" = Except.ok none ∧
      extract_date_from_filename s = Except.ok none)) ∧
    ((∀ (s : String) (tok : List Char),
      searchFirst matchHyphen s.data = some tok → parseTokHyphen tok = none →
      extract_date_from_string s "hyphen" = Except.error PyErr.valueError) ∧
    (∀ (s : String) (tok : List Char) (dt : PyDate),
      searchFirst matchHyphen s.data = some tok → parseTokHyphen tok = some dt →
      extract_date_from_string s "hyphen" = Except.ok (some dt)) ∧
    (∀ s : String, searchFirst matchHyphen s.data = none →
      extract_date_from_string s "hyphen" = Except.ok none)) ∧
    ((∀ (s : String) (tok : List Char),
      searchFirst matchUnderscore s.data = some tok → parseTokHyphen tok = none →
      extract_date_from_string s "underscore" = Except.error PyErr.valueError) ∧
    (∀ (s : String) (tok : List Char) (dt : PyDate),
      searchFirst matchUnderscore s.data = some tok →
      parseTokHyphen tok = some dt →
      extract_date_from_string s "underscore" = Except.ok (some dt)) ∧
    (∀ s : String, searchFirst matchUnderscore s.data = none →
      extract_date_from_string s "underscore" = Except.ok none)) := by
  refine ⟨⟨?_, ?_, ?_⟩, ⟨?_, ?_, ?_⟩, ⟨?_, ?_, ?_⟩⟩
  · intro s tok h1 h2
    exact ⟨by simp [extract_date_from_string, extract_date_default, h1, h2],
      by simp [extract_date_from_filename, h1, h2]⟩
  · intro s tok dt h1 h2
    exact ⟨by simp [extract_date_from_string, extract_date_default, h1, h2],
      by simp [extract_date_from_filename, h1, h2]⟩
  · intro s h1
    exact ⟨by simp [extract_date_from_string, extract_date_default, h1],
      by simp [extract_date_from_filename, h1]⟩
  · intro s tok h1 h2
    simp [extract_date_from_string, extract_date_hyphen, h1, h2]
  · intro s tok dt h1 h2
    simp [extract_date_from_string, extract_date_hyphen, h1, h2]
  · intro s h1
    simp [extract_date_from_string, extract_date_hyphen, h1]
  · intro s tok h1 h2
    simp [extract_date_from_string, extract_date_underscore, h1, h2]
  · intro s tok dt h1 h2
    simp [extract_date_from_string, extract_date_underscore, h1, h2]
  · intro s h1
    simp [extract_date_from_string, extract_date_underscore, h1]

/-- Claim C1, witness: invalid tokens (day 32) raise in all three formats;
a valid token parses to its date; a tokenless key gives absence. -/
theorem extract_invalid_matching_token_raises_witness :
    (extract_date_from_string "data_20230132.bin" "default" =
      Except.error PyErr.valueError ∧
    extract_date_from_filename "data_20230132.bin" =
      Except.error PyErr.valueError) ∧
    extract_date_from_string "data_2023-01-32.bin" "hyphen" =
      Except.error PyErr.valueError ∧
    extract_date_from_string "data_2023_01_32.bin" "underscore" =
      Except.error PyErr.valueError ∧
    extract_date_from_string "data_20230105.bin" "default" =
      Except.ok (some ⟨2023, 1, 5⟩) ∧
    extract_date_from_string "nodate.bin" "hyphen" = Except.ok none :=
  ⟨extract_invalid_matching_token_raises.1.1 "data_20230132.bin"
      "20230132".data (by decide) (by decide),
    extract_invalid_matching_token_raises.2.1.1 "data_2023-01-32.bin"
      "2023-01-32".data (by decide) (by decide),
    extract_invalid_matching_token_raises.2.2.1 "data_2023_01_32.bin"
      "2023_01_32".data (by decide) (by decide),
    (extract_invalid_matching_token_raises.1.2.1 "data_20230105.bin"
      "20230105".data ⟨2023, 1, 5⟩ (by decide) (by decide)).1,
    extract_invalid_matching_token_raises.2.1.2.2 "nodate.bin" (by decide)⟩

/-- Claim C2, counterexample: on the key list `["file_99999999.bin"]` the
range-selection step of `read_databento_from_s3` does not return the filtered
subsequence (which would be `[]`, the key's date being absent under the
claim's reading) — it propagates the `ValueError` raised by
`extract_date_from_filename`, and so does the orchestrator. -/
theorem selectFiles_raising_key_not_filtered :
    selectFiles ⟨2023, 1, 2⟩ ⟨2023, 1, 8⟩ ["file_99999999.bin"] =
      Except.error PyErr.valueError ∧
    selectFiles ⟨2023, 1, 2⟩ ⟨2023, 1, 8⟩ ["file_99999999.bin"] ≠
      Except.ok (List.filter (inRange ⟨2023, 1, 2⟩ ⟨2023, 1, 8⟩)
        ["file_99999999.bin"]) ∧
    read_databento_from_s3 "file" ⟨2023, 1, 2⟩ ⟨2023, 1, 8⟩
      ["file_99999999.bin"] (fun _ => Except.ok ([] : List Nat)) =
      Except.error PyErr.valueError := by
  decide

/-- Claim C2, amended: for every key sequence on which extraction raises no
`ValueError` (no key whose leftmost `\d{8}` match is an invalid date), the
range-selection step returns exactly the stable filter of the keys by
"extracted date present and `sd ≤ d ≤ ed`", preserving input order. -/
theorem selectFiles_is_stable_range_filter (sd ed : PyDate) (keys : List String)
    (h : ∀ k ∈ keys, (extract_date_from_filename k).isOk = true) :
    selectFiles sd ed keys = .ok (keys.filter (inRange sd ed)) := by
  induction keys with
  | nil => rfl
  | cons f rest ih =>
    have hf := h f (List.mem_cons_self f rest)
    have hrest := ih (fun k hk => h k (List.mem_cons_of_mem f hk))
    cases hx : extract_date_from_filename f with
    | error e => rw [hx] at hf; simp [Except.isOk, Except.toBool] at hf
    | ok fd =>
      rw [selectFiles, hx, hrest, List.filter_cons]
      cases fd with
      | none => simp [inRange, hx]
      | some d => by_cases hd : (sd.le d && d.le ed) = true <;> simp [inRange, hx, hd]

/-- Claim C2, witness (Scenario A): keys
`["data_20230101.bin", "data_20230105.bin", "data_20230110.bin"]` with range
2023-01-02 .. 2023-01-08 select exactly `["data_20230105.bin"]`. -/
theorem selectFiles_is_stable_range_filter_witness :
    selectFiles ⟨2023, 1, 2⟩ ⟨2023, 1, 8⟩
      ["data_20230101.bin", "data_20230105.bin", "data_20230110.bin"] =
      Except.ok ["data_20230105.bin"] := by
  rw [selectFiles_is_stable_range_filter ⟨2023, 1, 2⟩ ⟨2023, 1, 8⟩
    ["data_20230101.bin", "data_20230105.bin", "data_20230110.bin"] (by decide)]
  decide

/-- Claim C3, counterexample: the empty-selection error of
`read_databento_from_s3` is identical for two different prefixes, so it does
not carry the requested prefix; its message carries only the range. -/
theorem noFilesInRange_error_omits_folder :
    read_databento_from_s3 "folderA" ⟨2023, 1, 2⟩ ⟨2023, 1, 8⟩ []
        (fun _ => Except.ok ([] : List Nat)) =
      read_databento_from_s3 "folderB" ⟨2023, 1, 2⟩ ⟨2023, 1, 8⟩ []
        (fun _ => Except.ok ([] : List Nat)) ∧
    read_databento_from_s3 "folderA" ⟨2023, 1, 2⟩ ⟨2023, 1, 8⟩ []
        (fun _ => Except.ok ([] : List Nat)) =
      Except.error (PyErr.fileNotFound
        "No files found in the date range 2023-01-02 to 2023-01-08") := by
  decide

/-- Claim C3, amended: whenever the range-filtered selection is empty
(including an empty listing), the orchestrator raises `FileNotFoundError`
whose message carries the requested range `(sd, ed)` — but not the prefix —
and this is the only failure the orchestrator raises itself. -/
theorem empty_selection_raises_fileNotFound_with_range {α : Type}
    (folder : String) (sd ed : PyDate) (file_list : List String)
    (g : String → Except PyErr (List α))
    (h : selectFiles sd ed (get_files_in_s3_folder folder file_list) = .ok []) :
    read_databento_from_s3 folder sd ed file_list g =
      .error (.fileNotFound (noFilesMsg sd ed)) := by
  simp [read_databento_from_s3, h]

/-- Claim C3, witness: an empty listing with range 2023-01-02 .. 2023-01-08. -/
theorem empty_selection_raises_fileNotFound_with_range_witness :
    read_databento_from_s3 "databento" ⟨2023, 1, 2⟩ ⟨2023, 1, 8⟩ []
      (fun _ => Except.ok ([] : List Nat)) =
      Except.error (PyErr.fileNotFound (noFilesMsg ⟨2023, 1, 2⟩ ⟨2023, 1, 8⟩)) :=
  empty_selection_raises_fileNotFound_with_range "databento" ⟨2023, 1, 2⟩
    ⟨2023, 1, 8⟩ [] (fun _ => Except.ok ([] : List Nat)) (by decide)

/-- Claim C4, counterexample: with the unrecognized selector `"iso"`,
`extract_date_from_string` returns `None` normally — no `UnknownFormat`
failure exists anywhere in the code, so format resolution does not fail. -/
theorem unknown_format_returns_none_not_error :
    extract_date_from_string "data_20230101.bin" "iso" = Except.ok none := by
  decide

/-- Claim C4, amended: for every selector outside the closed set
{default, hyphen, underscore}, extraction falls through every branch and
returns absence without raising any error (there is no `UnknownFormat`). -/
theorem unknown_format_extraction_returns_absence (s fmt : String)
    (h1 : fmt ≠ "default") (h2 : fmt ≠ "hyphen") (h3 : fmt ≠ "underscore") :
    extract_date_from_string s fmt = Except.ok none := by
  simp [extract_date_from_string, h1, h2, h3]

/-- Claim C4, witness: the selector `"iso"` on a key with a valid date token. -/
theorem unknown_format_extraction_returns_absence_witness :
    extract_date_from_string "data_20230105.bin" "iso" = Except.ok none :=
  unknown_format_extraction_returns_absence "data_20230105.bin" "iso"
    (by decide) (by decide) (by decide)

/-- Claim C9: for every key and every selector outside the closed set,
`extract_date_from_string` falls through all format branches and returns
`None` without raising — the same observable result as a key with no date
token (such as `"report.txt"`) under a recognized format. -/
theorem unknown_selector_indistinguishable_from_no_token (s fmt : String)
    (h1 : fmt ≠ "default") (h2 : fmt ≠ "hyphen") (h3 : fmt ≠ "underscore") :
    extract_date_from_string s fmt = Except.ok none ∧
    extract_date_from_string "report.txt" "default" = Except.ok none :=
  ⟨by simp [extract_date_from_string, h1, h2, h3], by decide⟩

/-- Claim C9, witness: selector `"iso"` on a dated key. -/
theorem unknown_selector_indistinguishable_from_no_token_witness :
    extract_date_from_string "data_20230101.bin" "iso" = Except.ok none ∧
    extract_date_from_string "report.txt" "default" = Except.ok none :=
  unknown_selector_indistinguishable_from_no_token "data_20230101.bin" "iso"
    (by decide) (by decide) (by decide)

/-- Claim C5: on every successful run of `read_databento_from_s3`, the
combined dataset is the concatenation of the per-key decoded tables in
selected-key order (rows re-indexed only positionally, the fresh sequence
number being a row's position), and its row count is the sum of the per-key
row counts. -/
theorem combined_df_is_ordered_concat_of_tables {α : Type} (folder : String)
    (sd ed : PyDate) (file_list : List String)
    (g : String → Except PyErr (List α)) (df : List α)
    (h : read_databento_from_s3 folder sd ed file_list g = .ok df) :
    ∃ sel dfs,
      selectFiles sd ed (get_files_in_s3_folder folder file_list) = .ok sel ∧
      fetchLoop g sel = .ok dfs ∧
      df = pd_concat_ignore_index dfs ∧
      df.length = (dfs.map List.length).sum := by
  cases hsel : selectFiles sd ed (get_files_in_s3_folder folder file_list) with
  | error e => simp [read_databento_from_s3, hsel] at h
  | ok sel =>
    cases hemp : sel.isEmpty with
    | true => simp [read_databento_from_s3, hsel, hemp] at h
    | false =>
      cases hf : fetchLoop g sel with
      | error e => simp [read_databento_from_s3, hsel, hemp, hf] at h
      | ok dfs =>
        simp only [read_databento_from_s3, hsel, hemp, Bool.false_eq_true,
          if_false, hf, Except.ok.injEq] at h
        refine ⟨sel, dfs, rfl, hf, h.symm, ?_⟩
        rw [← h]
        simp [pd_concat_ignore_index, List.length_flatten]

/-- Claim C5, witness: a two-key run whose tables have 2 and 1 rows combines
into the 3-row concatenation in listing order. -/
theorem combined_df_is_ordered_concat_of_tables_witness :
    ∃ sel dfs,
      selectFiles ⟨2023, 1, 2⟩ ⟨2023, 1, 8⟩
        (get_files_in_s3_folder "data"
          ["data_20230103.bin", "data_20230105.bin"]) = .ok sel ∧
      fetchLoop (fun s => if s = "data_20230103.bin" then
          Except.ok ([10, 11] : List Nat) else Except.ok [20]) sel = .ok dfs ∧
      ([10, 11, 20] : List Nat) = pd_concat_ignore_index dfs ∧
      ([10, 11, 20] : List Nat).length = (dfs.map List.length).sum :=
  combined_df_is_ordered_concat_of_tables "data" ⟨2023, 1, 2⟩ ⟨2023, 1, 8⟩
    ["data_20230103.bin", "data_20230105.bin"]
    (fun s => if s = "data_20230103.bin" then Except.ok [10, 11]
      else Except.ok [20])
    [10, 11, 20] (by decide)

/-- Claim C6: if every key before `k` in the selection fetches and decodes
successfully and `k` fails with error `e`, the whole run aborts surfacing
exactly `e`: `get_df_from_s3` is invoked once per key up to and including `k`
(no retry), no later key is fetched, and no partial dataset is returned. -/
theorem pipeline_fail_fast_first_error {α : Type} (folder : String)
    (sd ed : PyDate) (file_list : List String)
    (g : String → Except PyErr (List α)) (pre : List String) (k : String)
    (post : List String) (e : PyErr)
    (hsel : selectFiles sd ed (get_files_in_s3_folder folder file_list) =
      .ok (pre ++ k :: post))
    (hpre : ∀ x ∈ pre, (g x).isOk = true) (hk : g k = .error e) :
    read_databento_from_s3 folder sd ed file_list g = .error e ∧
    fetchAttempts g (pre ++ k :: post) = pre ++ [k] := by
  have hloop := fetchLoop_first_error g pre k post e hpre hk
  refine ⟨?_, hloop.2⟩
  have hne : (pre ++ k :: post).isEmpty = false := by cases pre <;> simp
  simp [read_databento_from_s3, hsel, hne, hloop.1]

/-- Claim C6, witness: of three selected keys, the second fails; the run
surfaces that error and only the first two keys are ever fetched. -/
theorem pipeline_fail_fast_first_error_witness :
    read_databento_from_s3 "" ⟨2023, 1, 2⟩ ⟨2023, 1, 8⟩
      ["a_20230103.bin", "b_20230104.bin", "c_20230105.bin"]
      (fun s => if s = "b_20230104.bin" then Except.error (PyErr.other "boom")
        else Except.ok ([0] : List Nat)) = .error (PyErr.other "boom") ∧
    fetchAttempts
      (fun s => if s = "b_20230104.bin" then Except.error (PyErr.other "boom")
        else Except.ok ([0] : List Nat))
      ["a_20230103.bin", "b_20230104.bin", "c_20230105.bin"] =
      ["a_20230103.bin", "b_20230104.bin"] :=
  pipeline_fail_fast_first_error "" ⟨2023, 1, 2⟩ ⟨2023, 1, 8⟩
    ["a_20230103.bin", "b_20230104.bin", "c_20230105.bin"]
    (fun s => if s = "b_20230104.bin" then Except.error (PyErr.other "boom")
      else Except.ok ([0] : List Nat))
    ["a_20230103.bin"] "b_20230104.bin" ["c_20230105.bin"]
    (PyErr.other "boom") (by decide) (by decide) (by decide)

/-- Claim C7: extraction obeys a leftmost-first-match policy: if the format's
pattern fails to match at every position before `a.length` and matches there
with token `t`, and `t` parses to date `dt`, extraction returns `dt` — any
later matching substring is ignored; and if no position matches, extraction
returns absence. Stated for the `default` pattern `\d{8}` and the `hyphen`
pattern `\d{4}-\d{2}-\d{2}`. -/
theorem extract_first_match_policy :
    (∀ (s : String) (a b t : List Char) (dt : PyDate),
      s.data = a ++ b → match8 b = some t →
      (∀ j < a.length, match8 (s.data.drop j) = none) →
      parseTok8 t = some dt →
      extract_date_from_string s "default" = Except.ok (some dt)) ∧
    (∀ s : String, (∀ j < s.data.length, match8 (s.data.drop j) = none) →
      extract_date_from_string s "default" = Except.ok none) ∧
    (∀ (s : String) (a b t : List Char) (dt : PyDate),
      s.data = a ++ b → matchHyphen b = some t →
      (∀ j < a.length, matchHyphen (s.data.drop j) = none) →
      parseTokHyphen t = some dt →
      extract_date_from_string s "hyphen" = Except.ok (some dt)) := by
  refine ⟨?_, ?_, ?_⟩
  · intro s a b t dt hs hb ha hp
    have hsearch : searchFirst match8 s.data = some t := by
      rw [hs]
      exact searchFirst_pos match8 a b t hb (fun j hj => by
        rw [← hs]; exact ha j hj)
    simp [extract_date_from_string, extract_date_default, hsearch, hp]
  · intro s h
    have hsearch : searchFirst match8 s.data = none :=
      searchFirst_neg match8 s.data rfl h
    simp [extract_date_from_string, extract_date_default, hsearch]
  · intro s a b t dt hs hb ha hp
    have hsearch : searchFirst matchHyphen s.data = some t := by
      rw [hs]
      exact searchFirst_pos matchHyphen a b t hb (fun j hj => by
        rw [← hs]; exact ha j hj)
    simp [extract_date_from_string, extract_date_hyphen, hsearch, hp]

/-- Claim C7, witness: the key `"a_20230505_20231111.bin"` holds two `\d{8}`
tokens and extraction returns the leftmost one (2023-05-05); the tokenless
key `"report.txt"` extracts to absence. -/
theorem extract_first_match_policy_witness :
    extract_date_from_string "a_20230505_20231111.bin" "default" =
      Except.ok (some ⟨2023, 5, 5⟩) ∧
    extract_date_from_string "report.txt" "default" = Except.ok none :=
  ⟨extract_first_match_policy.1 "a_20230505_20231111.bin" "a_".data
      "20230505_20231111.bin".data "20230505".data ⟨2023, 5, 5⟩
      (by decide) (by decide) (by decide) (by decide),
    extract_first_match_policy.2.1 "report.txt" (by decide)⟩

/-- Claim C8, counterexample: the lister used by the pipeline,
`get_files_in_s3_folder`, keeps a directory-marker key: with bucket listing
`["data/", "data/20230101.bin"]` and folder `"data"` it returns the marker
`"data/"`, which ends in the delimiter. -/
theorem pipeline_lister_returns_directory_marker :
    get_files_in_s3_folder "data" ["data/", "data/20230101.bin"] =
      ["data/", "data/20230101.bin"] ∧
    endswith "data/" "/" = true := by
  decide

/-- Claim C8, amended: only the delimiter-aware lister `get_files_in_s3_path`
(aws.py) — which the pipeline does not call — excludes directory-marker keys:
every key it returns does not end in `"/"`; the pipeline's own lister
`get_files_in_s3_folder` is a plain prefix filter with no such guarantee. -/
theorem get_files_in_s3_path_excludes_markers (listed : List String)
    (k : String) (h : k ∈ get_files_in_s3_path listed) :
    endswith k "/" = false := by
  have hk := List.of_mem_filter h
  simpa using hk

/-- Claim C8, witness: from a listing holding a marker and a leaf,
`get_files_in_s3_path` keeps the leaf, which does not end in `"/"`. -/
theorem get_files_in_s3_path_excludes_markers_witness :
    endswith "data/20230101.bin" "/" = false :=
  get_files_in_s3_path_excludes_markers ["data/", "data/20230101.bin"]
    "data/20230101.bin" (by decide)

/-- Claim C10: `get_files_in_s3_folder` retains exactly the keys having the
folder name as a plain character-string prefix — an order-preserving sublist
of the listing, with no path-separator check — so folder `"data"` also
matches the sibling-folder key `"database/file.bin"`. -/
theorem folder_filter_is_plain_startswith :
    (∀ (foldername k : String) (file_list : List String),
      k ∈ get_files_in_s3_folder foldername file_list ↔
        k ∈ file_list ∧ startswith k foldername = true) ∧
    (∀ (foldername : String) (file_list : List String),
      (get_files_in_s3_folder foldername file_list).Sublist file_list) ∧
    get_files_in_s3_folder "data" ["database/file.bin"] =
      ["database/file.bin"] := by
  refine ⟨?_, ?_, by decide⟩
  · intro foldername k file_list
    simp [get_files_in_s3_folder, List.mem_filter]
  · intro foldername file_list
    exact List.filter_sublist file_list

end Oneutil
